import Mathlib

/-
  Verification development for the embedded MNIST training script
  (script/mnist.py, written by the notebook 2_pytorch_training_job.ipynb).

  The script is shallowly embedded: tensors are nested lists of rationals,
  the global torch RNG is an explicit state threaded through the functions
  that consume it, and the externally supplied pieces of the framework
  (the optimizer update rule, the exp/log functions used by log-softmax,
  the DataLoader shuffle) are either explicit function parameters or
  simple concrete models, since their internals are not part of this
  repository.  The control flow, the constants, and the data flow of the
  script itself are translated line by line from script/mnist.py.
-/

namespace MnistScript

/-! ## Tensors -/

abbrev Vec := List ℚ
abbrev Mat := List (List ℚ)
abbrev T3 := List (List (List ℚ))
abbrev T4 := List (List (List (List ℚ)))

/-- Read entry i of a vector, 0 outside the range (well-shaped uses stay inside). -/
def get1 (v : Vec) (i : Nat) : ℚ := v.getD i 0

/-- Read entry (i, j) of a matrix. -/
def get2 (m : Mat) (i j : Nat) : ℚ := (m.getD i []).getD j 0

/-- Read entry (c, i, j) of a channel-height-width tensor. -/
def get3 (x : T3) (c i j : Nat) : ℚ := ((x.getD c []).getD i []).getD j 0

/-! ## Shape predicates (Boolean, decidable) -/

def isVec (v : Vec) (n : Nat) : Bool := v.length == n

def isMat (m : Mat) (r c : Nat) : Bool :=
  m.length == r && m.all (fun row => row.length == c)

def isT3 (x : T3) (c h w : Nat) : Bool :=
  x.length == c && x.all (fun ch => isMat ch h w)

def isT4 (x : T4) (o c h w : Nat) : Bool :=
  x.length == o && x.all (fun ch => isT3 ch c h w)

/-! ## Framework operations used by the forward pass

    These model the torch/torch.nn.functional operations the script calls:
    2-D cross-correlation with bias (torch.nn.Conv2d), 2x2 max pooling
    (F.max_pool2d with kernel 2), ReLU, flattening (x.view(-1, 320), taken
    per example in channel-major order), affine layers (torch.nn.Linear),
    channel dropout (torch.nn.Dropout2d) and element dropout (F.dropout),
    and log-softmax.  Dropout randomness is made explicit: the Bernoulli
    keep/drop draws arrive as a mask argument; exp and log are not rational,
    so log-softmax takes them as function parameters. -/

def reluQ (q : ℚ) : ℚ := max 0 q

def reluV (v : Vec) : Vec := v.map reluQ

def relu3 (x : T3) : T3 := x.map (fun ch => ch.map (fun row => row.map reluQ))

/-- Valid (no-padding, stride-1) 2-D cross-correlation with bias: the forward
    computation of torch.nn.Conv2d(inC, outC, kernel_size=k). -/
def conv2d (w : T4) (b : Vec) (x : T3) : T3 :=
  let kh := ((w.headD []).headD []).length
  let kw := (((w.headD []).headD []).headD []).length
  let hIn := (x.headD []).length
  let wIn := ((x.headD []).headD []).length
  (w.zip b).map (fun wb =>
    (List.range (hIn + 1 - kh)).map (fun i =>
      (List.range (wIn + 1 - kw)).map (fun j =>
        wb.2 + ((List.range wb.1.length).map (fun c =>
          ((List.range kh).map (fun di =>
            ((List.range kw).map (fun dj =>
              get2 (wb.1.getD c []) di dj * get3 x c (i + di) (j + dj))).sum)).sum)).sum)))

/-- 2x2 max pooling with stride 2 (F.max_pool2d with kernel size 2). -/
def maxPool2 (x : T3) : T3 :=
  x.map (fun ch =>
    (List.range (ch.length / 2)).map (fun i =>
      (List.range ((ch.headD []).length / 2)).map (fun j =>
        max (max (get2 ch (2 * i) (2 * j)) (get2 ch (2 * i) (2 * j + 1)))
            (max (get2 ch (2 * i + 1) (2 * j)) (get2 ch (2 * i + 1) (2 * j + 1))))))

/-- Per-example channel-major flattening: the effect of x.view(-1, 320) on one
    well-shaped example. -/
def flatten (x : T3) : Vec := (x.map List.flatten).flatten

def dot (r v : Vec) : ℚ := (List.zipWith (fun a b => a * b) r v).sum

/-- Affine layer: the forward computation of torch.nn.Linear. -/
def linear (w : Mat) (b : Vec) (v : Vec) : Vec :=
  List.zipWith (fun row bi => bi + dot row v) w b

/-- torch.nn.Dropout2d(p): in training mode each kept channel (mask c = true)
    is scaled by 1/(1-p) and each dropped channel is zeroed; in evaluation
    mode the input passes through unchanged. -/
def dropout2d (training : Bool) (mask : Nat → Bool) (p : ℚ) (x : T3) : T3 :=
  if training then
    x.enum.map (fun ci =>
      if mask ci.1 then ci.2.map (fun row => row.map (fun q => q * (1 / (1 - p))))
      else ci.2.map (fun row => row.map (fun _ => 0)))
  else x

/-- F.dropout(x, p, training): elementwise dropout with the same scaling. -/
def dropoutV (training : Bool) (mask : Nat → Bool) (p : ℚ) (v : Vec) : Vec :=
  if training then
    v.enum.map (fun iv => if mask iv.1 then iv.2 * (1 / (1 - p)) else 0)
  else v

/-- F.log_softmax along the class dimension: entry i becomes
    v[i] - log (sum j, exp v[j]).  exp and log are the framework's real
    transcendental functions, abstracted as parameters. -/
def logSoftmax (mExp mLog : ℚ → ℚ) (v : Vec) : Vec :=
  v.map (fun vi => vi - mLog ((v.map mExp).sum))

/-! ## The Net module (class Net in script/mnist.py) -/

/-- The learnable tensors of Net: conv1, conv2, fc1, fc2, each with a weight
    and a bias.  conv2_drop (Dropout2d) has no parameters. -/
structure NetParams where
  conv1Weight : T4
  conv1Bias : Vec
  conv2Weight : T4
  conv2Bias : Vec
  fc1Weight : Mat
  fc1Bias : Vec
  fc2Weight : Mat
  fc2Bias : Vec

/-- First half of Net.forward:
    relu(max_pool2d(conv1(x), 2)) then
    relu(max_pool2d(conv2_drop(conv2(.)), 2)). -/
def convBlocks (training : Bool) (mask2 : Nat → Bool) (dropP : ℚ)
    (p : NetParams) (x : T3) : T3 :=
  let x1 := relu3 (maxPool2 (conv2d p.conv1Weight p.conv1Bias x))
  relu3 (maxPool2 (dropout2d training mask2 dropP (conv2d p.conv2Weight p.conv2Bias x1)))

/-- Net.forward on one example, translated statement by statement from the
    script: the two conv blocks, x.view(-1, 320), relu(fc1 x),
    F.dropout(x, training=self.training) (p at its default 1/2), fc2, and
    F.log_softmax(x, dim=1). -/
def netForward (mExp mLog : ℚ → ℚ) (training : Bool) (mask2 mask1 : Nat → Bool)
    (dropP : ℚ) (p : NetParams) (x : T3) : Vec :=
  let x2 := flatten (convBlocks training mask2 dropP p x)
  let x3 := reluV (linear p.fc1Weight p.fc1Bias x2)
  let x4 := dropoutV training mask1 (1 / 2) x3
  let x5 := linear p.fc2Weight p.fc2Bias x4
  logSoftmax mExp mLog x5

/-- Pipeline written from the specification sentence (section 4.1 step 4):
    conv(1 to hidden, kernel 5), max-pool 2, ReLU, conv(hidden to 20,
    kernel 5), 2D dropout(p = 0.5), max-pool 2, ReLU, flatten to 320
    features, linear(320 to 50), ReLU, dropout (training-mode only),
    linear(50 to 10), log-softmax over 10 classes. -/
def specPipeline (mExp mLog : ℚ → ℚ) (training : Bool) (mask2 mask1 : Nat → Bool)
    (p : NetParams) (x : T3) : Vec :=
  logSoftmax mExp mLog
    (linear p.fc2Weight p.fc2Bias
      (dropoutV training mask1 (1 / 2)
        (reluV
          (linear p.fc1Weight p.fc1Bias
            (flatten
              (relu3
                (maxPool2
                  (dropout2d training mask2 (1 / 2)
                    (conv2d p.conv2Weight p.conv2Bias
                      (relu3 (maxPool2 (conv2d p.conv1Weight p.conv1Bias x))))))))))))

/-- The evaluation-mode model function (after model.eval(): training = false,
    so both dropouts are the identity and the masks are irrelevant). -/
def netForwardEval (mExp mLog : ℚ → ℚ) (p : NetParams) : T3 → Vec :=
  netForward mExp mLog false (fun _ => true) (fun _ => true) (1 / 2) p

/-- The expected tensor shapes of a Net built with the given hidden-channel
    width: conv1 (h, 1, 5, 5) and (h), conv2 (20, h, 5, 5) and (20),
    fc1 (50, 320) and (50), fc2 (10, 50) and (10). -/
def shapeOk (h : Nat) (p : NetParams) : Bool :=
  isT4 p.conv1Weight h 1 5 5 && isVec p.conv1Bias h &&
  isT4 p.conv2Weight 20 h 5 5 && isVec p.conv2Bias 20 &&
  isMat p.fc1Weight 50 320 && isVec p.fc1Bias 50 &&
  isMat p.fc2Weight 10 50 && isVec p.fc2Bias 10

/-- Total number of scalar parameters held by the model. -/
def countT4 (w : T4) : Nat :=
  (w.map (fun c => (c.map (fun m => (m.map List.length).sum)).sum)).sum

def countMat (m : Mat) : Nat := (m.map List.length).sum

def countParams (p : NetParams) : Nat :=
  countT4 p.conv1Weight + p.conv1Bias.length +
  countT4 p.conv2Weight + p.conv2Bias.length +
  countMat p.fc1Weight + p.fc1Bias.length +
  countMat p.fc2Weight + p.fc2Bias.length

/-! ## Serialization (save_model) -/

inductive Tensor where
  | v1 (x : Vec)
  | m2 (x : Mat)
  | c4 (x : T4)

/-- The ordered parameter mapping serialized by torch.save: the state_dict of
    the trained model.  train_model wraps the Net in torch.nn.DataParallel,
    so every key carries the module. prefix of the wrapper. -/
def stateDict (p : NetParams) : List (String × Tensor) :=
  [("module.conv1.weight", Tensor.c4 p.conv1Weight),
   ("module.conv1.bias", Tensor.v1 p.conv1Bias),
   ("module.conv2.weight", Tensor.c4 p.conv2Weight),
   ("module.conv2.bias", Tensor.v1 p.conv2Bias),
   ("module.fc1.weight", Tensor.m2 p.fc1Weight),
   ("module.fc1.bias", Tensor.v1 p.fc1Bias),
   ("module.fc2.weight", Tensor.m2 p.fc2Weight),
   ("module.fc2.bias", Tensor.v1 p.fc2Bias)]

/-- save_model(model, model_dir): writes torch.save(model.cpu().state_dict())
    to os.path.join(model_dir, "model.pth").  The filesystem effect is
    modelled as the list of (path, contents) pairs written. -/
def saveModel (p : NetParams) (modelDir : String) : List (String × List (String × Tensor)) :=
  [(modelDir ++ "/model.pth", stateDict p)]

/-! ## The torch global RNG, explicit

    The script consumes framework randomness in three places: parameter
    initialization of the freshly built Net, the per-epoch DataLoader
    shuffles, and training-mode dropout.  The generator itself is external
    framework state; it is modelled as a Nat state with a linear-congruential
    step.  torch.manual_seed(n) resets the state to n. -/

abbrev RngState := Nat

def lcgNext (g : RngState) : RngState := (g * 1103515245 + 12345) % 4294967296

def rngVal (g : RngState) : ℚ := ((g % 1000 : Nat) : ℚ) / 1000

def manualSeed (n : Nat) : RngState := n

/-- Draw n scalars from the generator. -/
def drawVec : Nat → RngState → Vec × RngState
  | 0, g => ([], g)
  | n + 1, g =>
    let rest := drawVec n (lcgNext g)
    (rngVal g :: rest.1, rest.2)

def drawMat : Nat → Nat → RngState → Mat × RngState
  | 0, _, g => ([], g)
  | r + 1, c, g =>
    let row := drawVec c g
    let rest := drawMat r c row.2
    (row.1 :: rest.1, rest.2)

def drawT3 : Nat → Nat → Nat → RngState → T3 × RngState
  | 0, _, _, g => ([], g)
  | c + 1, hh, ww, g =>
    let m := drawMat hh ww g
    let rest := drawT3 c hh ww m.2
    (m.1 :: rest.1, rest.2)

def drawT4 : Nat → Nat → Nat → Nat → RngState → T4 × RngState
  | 0, _, _, _, g => ([], g)
  | o + 1, c, hh, ww, g =>
    let t := drawT3 c hh ww g
    let rest := drawT4 o c hh ww t.2
    (t.1 :: rest.1, rest.2)

/-- Net(hidden_channels, kernel_size=5, drop_out=0.5): builds the four layers,
    drawing each parameter tensor from the seeded generator in registration
    order (the framework's default initialization). -/
def initNet (hiddenChannels : Nat) (g : RngState) : NetParams × RngState :=
  let c1w := drawT4 hiddenChannels 1 5 5 g
  let c1b := drawVec hiddenChannels c1w.2
  let c2w := drawT4 20 hiddenChannels 5 5 c1b.2
  let c2b := drawVec 20 c2w.2
  let f1w := drawMat 50 320 c2b.2
  let f1b := drawVec 50 f1w.2
  let f2w := drawMat 10 50 f1b.2
  let f2b := drawVec 10 f2w.2
  (⟨c1w.1, c1b.1, c2w.1, c2b.1, f1w.1, f1b.1, f2w.1, f2b.1⟩, f2b.2)

/-! ## Data loading (torch.utils.data.DataLoader) -/

/-- Split a list into consecutive batches of size n.  Structural recursion on
    a fuel argument; with positive n, each step strictly shortens the list, so
    fuel equal to the list length is always enough. -/
def chunksFuel : Nat → Nat → List α → List (List α)
  | 0, _, _ => []
  | _, _, [] => []
  | _ + 1, 0, _ :: _ => []
  | fuel + 1, n + 1, a :: rest =>
    ((a :: rest).take (n + 1)) :: chunksFuel fuel (n + 1) ((a :: rest).drop (n + 1))

/-- Split a list into consecutive batches of size n (the last may be short),
    as a DataLoader with batch_size n and drop_last=False does. -/
def chunks (n : Nat) (l : List α) : List (List α) := chunksFuel l.length n l

/-- Modelled: DataLoader(shuffle=True) presents an RNG-driven permutation of
    the dataset on each iteration, advancing the global generator.  The exact
    permutation torch picks is internal to the framework; it is modelled as a
    state-dependent rotation, which is a permutation for every state. -/
def shuffleList (g : RngState) (xs : List α) : List α × RngState :=
  (xs.rotate (g % (xs.length + 1)), lcgNext g)

/-! ## Metrics (log_performance) -/

/-- Index of the first maximum of a vector: output.max(1, keepdim=True)[1]. -/
def argmaxAux : Nat → ℚ → Nat → List ℚ → Nat
  | bi, _, _, [] => bi
  | bi, bv, i, v :: rest =>
    if bv < v then argmaxAux i v (i + 1) rest else argmaxAux bi bv (i + 1) rest

def argmax : List ℚ → Nat
  | [] => 0
  | v :: rest => argmaxAux 0 v 1 rest

/-- F.nll_loss(output, target, reduction="sum") over a batch: the sum over the
    batch of the negative log-probability assigned to the true label. -/
def nllLossSum (m : α → Vec) (batch : List (α × Nat)) : ℚ :=
  (batch.map (fun ex => -((m ex.1).getD ex.2 0))).sum

/-- Number of examples in a batch whose arg-max predicted class equals the
    label (pred.eq(target.view_as(pred)).sum()). -/
def correctCount (m : α → Vec) (batch : List (α × Nat)) : Nat :=
  batch.countP (fun ex => argmax (m ex.1) == ex.2)

/-- log_performance: accumulate summed loss and correct count over the batches
    of the loader, then divide both by len(data_loader.dataset).  Returns
    (average loss, percentage accuracy). -/
def logPerformance (m : α → Vec) (loader : List (List (α × Nat)))
    (datasetLen : Nat) : ℚ × ℚ :=
  let acc := loader.foldl
    (fun acc batch => (acc.1 + nllLossSum m batch, acc.2 + correctCount m batch))
    ((0 : ℚ), (0 : Nat))
  (acc.1 / (datasetLen : ℚ), 100 * ((acc.2 : ℚ)) / (datasetLen : ℚ))

/-! ## Optimizer selection -/

inductive OptimizerSpec where
  | sgd (lr momentum : ℚ)
  | adam (lr : ℚ)
deriving DecidableEq

/-- The selection in train_model: momentum = 0.5, lr = 0.01, and
    torch.optim.SGD(lr, momentum) when the selector string equals "sgd",
    torch.optim.Adam(lr) otherwise (the else branch catches every other
    string). -/
def chosenOptimizer (name : String) : OptimizerSpec :=
  if name = "sgd" then OptimizerSpec.sgd (1 / 100) (1 / 2)
  else OptimizerSpec.adam (1 / 100)

/-! ## The training loop (train_model) -/

/-- Observable events of one run: a parameter update on batch index b of epoch
    e (batch indices start at 1, from enumerate(train_loader, 1)), and one
    log_performance call, carrying its metric type and the reported
    (average loss, accuracy). -/
inductive TrainEvent where
  | batchStep (epoch : Int) (batchIdx : Nat)
  | evalLog (epoch : Int) (metricType : String) (avgLoss accuracy : ℚ)
deriving DecidableEq

/-- Mutable state across epochs: the model parameters, the optimizer buffers
    (momentum or moment estimates; their type is the framework's), and the
    global RNG. -/
structure TrainState (σ : Type) where
  net : NetParams
  opt : σ
  rng : RngState

/-- The framework's per-batch update (zero_grad, forward, nll_loss, backward,
    optimizer.step()), external to the script: given the optimizer
    hyperparameters, it maps optimizer buffers, parameters, the batch, and
    the RNG (consumed by training-mode dropout) to their successors. -/
abbrev BatchUpdate (σ : Type) :=
  OptimizerSpec → σ → NetParams → List (T3 × Nat) → RngState →
    NetParams × σ × RngState

/-- Python range(a, b) on integers. -/
def pythonRange (a b : Int) : List Int :=
  (List.range (b - a).toNat).map (fun (i : Nat) => a + (i : Int))

/-- One epoch of the loop body of train_model: model.train(); iterate the
    freshly shuffled training batches applying the update; then
    log_performance over the train loader and over the test loader (each
    iteration draws a fresh shuffle).  Returns the new state and the events
    of the epoch. -/
def runEpoch (update : BatchUpdate σ) (mExp mLog : ℚ → ℚ)
    (trainSet testSet : List (T3 × Nat)) (spec : OptimizerSpec)
    (st : TrainState σ) (epoch : Int) : TrainState σ × List TrainEvent :=
  let sh := shuffleList st.rng trainSet
  let batches := chunks 64 sh.1
  let afterBatches := batches.foldl
    (fun (acc : NetParams × σ × RngState) b => update spec acc.2.1 acc.1 b acc.2.2)
    (st.net, st.opt, sh.2)
  let net := afterBatches.1
  let shTr := shuffleList afterBatches.2.2 trainSet
  let mTr := logPerformance (netForwardEval mExp mLog net) (chunks 64 shTr.1) trainSet.length
  let shTe := shuffleList shTr.2 testSet
  let mTe := logPerformance (netForwardEval mExp mLog net) (chunks 1000 shTe.1) testSet.length
  (⟨net, afterBatches.2.1, shTe.2⟩,
   (List.range batches.length).map (fun b => TrainEvent.batchStep epoch (b + 1)) ++
     [TrainEvent.evalLog epoch "Train" mTr.1 mTr.2,
      TrainEvent.evalLog epoch "Test" mTe.1 mTe.2])

/-- The state transition of one epoch (events discarded). -/
def epochStep (update : BatchUpdate σ) (mExp mLog : ℚ → ℚ)
    (trainSet testSet : List (T3 × Nat)) (spec : OptimizerSpec)
    (st : TrainState σ) (epoch : Int) : TrainState σ :=
  (runEpoch update mExp mLog trainSet testSet spec st epoch).1

/-- The result of train_model, together with the run's observable events and
    the optimizer the run used. -/
structure TrainResult where
  params : NetParams
  optSpec : OptimizerSpec
  events : List TrainEvent

/-- train_model(train_set, test_set, optimizer, epochs, hidden_channels),
    translated from the script: torch.manual_seed(42) (discarding the ambient
    generator state g0), the two loaders, Net(hidden_channels, 5, 0.5) wrapped
    in DataParallel, the optimizer selection, then the epoch loop
    for epoch in range(1, epochs + 1), and finally the model of the last
    epoch is returned. -/
def trainModel (update : BatchUpdate σ) (optInit : σ) (mExp mLog : ℚ → ℚ)
    (g0 : RngState) (trainSet testSet : List (T3 × Nat))
    (optimizer : String) (epochs : Int) (hiddenChannels : Nat) : TrainResult :=
  let g := manualSeed 42
  let net0 := initNet hiddenChannels g
  let spec := chosenOptimizer optimizer
  let st0 : TrainState σ := ⟨net0.1, optInit, net0.2⟩
  let run := (pythonRange 1 (epochs + 1)).foldl
    (fun (acc : TrainState σ × List TrainEvent) e =>
      ((runEpoch update mExp mLog trainSet testSet spec acc.1 e).1,
       acc.2 ++ (runEpoch update mExp mLog trainSet testSet spec acc.1 e).2))
    (st0, [])
  ⟨run.1.net, spec, run.2⟩

/-- The state just before a given epoch starts: the initial state pushed
    through the preceding epochs. -/
def stateBefore (update : BatchUpdate σ) (mExp mLog : ℚ → ℚ)
    (trainSet testSet : List (T3 × Nat)) (spec : OptimizerSpec)
    (st0 : TrainState σ) (e : Int) : TrainState σ :=
  (pythonRange 1 e).foldl (epochStep update mExp mLog trainSet testSet spec) st0

/-- The events epoch e emits during the run that starts from st0. -/
def epochBlock (update : BatchUpdate σ) (mExp mLog : ℚ → ℚ)
    (trainSet testSet : List (T3 × Nat)) (spec : OptimizerSpec)
    (st0 : TrainState σ) (e : Int) : List TrainEvent :=
  (runEpoch update mExp mLog trainSet testSet spec
    (stateBefore update mExp mLog trainSet testSet spec st0 e) e).2

/-- The initial state of a train_model run (seeded initialization). -/
def initState (optInit : σ) (hiddenChannels : Nat) : TrainState σ :=
  let net0 := initNet hiddenChannels (manualSeed 42)
  ⟨net0.1, optInit, net0.2⟩

/-! ## Trace bookkeeping for the sequencing analysis -/

/-- The state after folding a state transition over a list of epochs. -/
def foldState {S : Type} (f : S → Int → S × List TrainEvent) (l : List Int) (s : S) : S :=
  l.foldl (fun s e => (f s e).1) s

/-- The events a state-and-log step function emits along a list of epochs. -/
def runLog {S : Type} (f : S → Int → S × List TrainEvent) : List Int → S → List TrainEvent
  | [], _ => []
  | e :: l, s => (f s e).2 ++ runLog f l (f s e).1

/-! ## Concrete instantiations used by the closed-form checks -/

/-- A concrete batch update with no optimizer buffers that returns the
    parameters unchanged (a zero-learning-rate stand-in for the framework
    update rule, used to evaluate the loop on closed inputs). -/
def demoUpdate : BatchUpdate Unit := fun _ o p _ g => (p, o, g)

def zerosVec (n : Nat) : Vec := List.replicate n 0

def zerosMat (r c : Nat) : Mat := List.replicate r (zerosVec c)

def zerosT3 (c h w : Nat) : T3 := List.replicate c (zerosMat h w)

def zerosT4 (o c h w : Nat) : T4 := List.replicate o (zerosT3 c h w)

/-- A concrete parameter set with the exact shapes of a Net of the given
    hidden-channel width. -/
def zerosNet (h : Nat) : NetParams :=
  ⟨zerosT4 h 1 5 5, zerosVec h, zerosT4 20 h 5 5, zerosVec 20,
   zerosMat 50 320, zerosVec 50, zerosMat 10 50, zerosVec 10⟩

/-! ## Script startup (the __main__ block) -/

/-- The three SageMaker environment variables the script reads. -/
structure SMEnv where
  smModelDir : Option String
  smNumGpus : Option String
  smChannelTraining : Option String

/-- The parsed configuration of the script. -/
structure ScriptArgs where
  epochs : Int
  optim : String
  hiddenChannels : Int
  modelDir : String
  numGpus : Int
  dataDir : String
deriving DecidableEq

/-- Value of a command-line flag, if present. -/
def lookupFlag (flag : String) (cmd : List (String × String)) : Option String :=
  (cmd.find? (fun kv => kv.1 == flag)).map (fun kv => kv.2)

/-- Decimal digit accumulator for parsePyInt. -/
def digitsValAux : Nat → List Char → Option Nat
  | acc, [] => some acc
  | acc, c :: rest =>
    if c.isDigit then digitsValAux (acc * 10 + (c.toNat - 48)) rest else none

/-- Value of a non-empty run of decimal digits. -/
def digitsVal : List Char → Option Nat
  | [] => none
  | c :: rest => digitsValAux 0 (c :: rest)

/-- Modelled: the int conversion argparse applies to type=int arguments
    (Python int() on a decimal string): an optional sign followed by decimal
    digits; anything else raises, which argparse turns into a fatal startup
    error.  Surrounding whitespace and digit-group underscores, which
    Python's int() also accepts, are not modelled. -/
def parsePyInt (s : String) : Option Int :=
  match s.toList with
  | [] => none
  | '-' :: ds => (digitsVal ds).map (fun n => -(n : Int))
  | '+' :: ds => (digitsVal ds).map (fun n => (n : Int))
  | ds => (digitsVal ds).map (fun n => (n : Int))

/-- Apply the int conversion to a string value of a type=int argument,
    failing fatally when the string is not an integer. -/
def intOfString (s : String) (flag : String) : Except String Int :=
  match parsePyInt s with
  | some n => Except.ok n
  | none => Except.error (flag ++ ": invalid int value")

/-- Parse an integer-typed argument with an integer default (argparse
    type=int with a non-string default: the conversion only ever runs on a
    command-line-supplied string). -/
def parseIntArg (cmd : List (String × String)) (flag : String) (dflt : Int) :
    Except String Int :=
  match lookupFlag flag cmd with
  | none => Except.ok dflt
  | some s => intOfString s flag

/-- The argparse setup and parse of the __main__ block.  The defaults of
    --model-dir, --num-gpus and --data-dir are os.environ lookups evaluated
    eagerly while the parser is being built, so a missing environment
    variable raises KeyError before any argument is parsed; the three
    hyperparameter arguments have plain defaults 10, "sgd", 10.  --num-gpus
    is declared type=int, and argparse applies that conversion to its
    effective value, the command-line string if supplied and otherwise the
    string default taken from the environment, so a non-integer SM_NUM_GPUS
    is also a fatal startup error. -/
def parseArgs (env : SMEnv) (cmd : List (String × String)) :
    Except String ScriptArgs :=
  match env.smModelDir with
  | none => Except.error "KeyError: SM_MODEL_DIR"
  | some mdDefault =>
    match env.smNumGpus with
    | none => Except.error "KeyError: SM_NUM_GPUS"
    | some ngDefault =>
      match env.smChannelTraining with
      | none => Except.error "KeyError: SM_CHANNEL_TRAINING"
      | some ddDefault => do
        let epochs ← parseIntArg cmd "--epochs" 10
        let hidden ← parseIntArg cmd "--hidden_channels" 10
        let numGpus ← intOfString ((lookupFlag "--num-gpus" cmd).getD ngDefault) "--num-gpus"
        Except.ok
          { epochs := epochs
            optim := (lookupFlag "--optimizer" cmd).getD "sgd"
            hiddenChannels := hidden
            modelDir := (lookupFlag "--model-dir" cmd).getD mdDefault
            numGpus := numGpus
            dataDir := (lookupFlag "--data-dir" cmd).getD ddDefault }

/-- The __main__ block: parse the configuration, load the two MNIST partitions
    from the data channel (the loader is the framework's; it is a parameter),
    run train_model, and save the result.  On a startup error nothing after
    parsing runs: no training events are produced and no file is written. -/
def scriptMain (update : BatchUpdate σ) (optInit : σ) (mExp mLog : ℚ → ℚ)
    (g0 : RngState)
    (loadData : String → Bool → List (T3 × Nat))
    (env : SMEnv) (cmd : List (String × String)) :
    Except String (TrainResult × List (String × List (String × Tensor))) := do
  let args ← parseArgs env cmd
  let trainSet := loadData args.dataDir true
  let testSet := loadData args.dataDir false
  let r := trainModel update optInit mExp mLog g0 trainSet testSet
    args.optim args.epochs args.hiddenChannels.toNat
  Except.ok (r, saveModel r.params args.modelDir)

/-! ## General-purpose lemmas -/

lemma headD_mem {α : Type} {l : List α} (d : α) (h : l ≠ []) : l.headD d ∈ l := by
  cases l with
  | nil => exact absurd rfl h
  | cons a t => simp

lemma sum_map_const {α : Type} {l : List α} {f : α → Nat} {k : Nat}
    (h : ∀ a ∈ l, f a = k) : (l.map f).sum = l.length * k := by
  induction l with
  | nil => simp
  | cons a t ih =>
    have ha : f a = k := h a (by simp)
    have ht : (t.map f).sum = t.length * k := ih (fun b hb => h b (by simp [hb]))
    simp [ha, ht, Nat.succ_mul]
    omega

lemma foldl_invariant {β ι : Type} {P : β → Prop} {f : β → ι → β}
    (hf : ∀ b i, P b → P (f b i)) :
    ∀ (l : List ι) (b : β), P b → P (l.foldl f b) := by
  intro l
  induction l with
  | nil => intro b hb; simpa using hb
  | cons i t ih => intro b hb; simpa using ih (f b i) (hf b i hb)

/-! ## Sanity checks of the embedding on tiny closed inputs -/

example : argmax [0, 3, 3, 1] = 1 := by decide

example : chunks 2 [1, 2, 3, 4, 5] = [[1, 2], [3, 4], [5]] := by decide

example : pythonRange 1 4 = [1, 2, 3] := by decide

example : pythonRange 1 (0 + 1) = [] := by decide

example : (stateDict (zerosNet 2)).length = 8 := by decide

/-! ## C5: determinism of train_model -/

/-- C5: train_model is deterministic: torch.manual_seed(42) runs before the
    loaders are built, before the model parameters are initialized, and before
    any shuffling, so the whole run is independent of the ambient generator
    state, and two runs with identical hyperparameters on identical partitions
    return identical results (final parameters, optimizer, and the full
    per-epoch sequence of logged metrics). -/
theorem c5_train_model_deterministic {σ : Type} (update : BatchUpdate σ)
    (optInit : σ) (mExp mLog : ℚ → ℚ) (g1 g2 : RngState)
    (trainSet testSet : List (T3 × Nat)) (optimizer : String)
    (epochs : Int) (hiddenChannels : Nat) :
    trainModel update optInit mExp mLog g1 trainSet testSet optimizer epochs hiddenChannels =
      trainModel update optInit mExp mLog g2 trainSet testSet optimizer epochs hiddenChannels := rfl

/-! ## C6: the optimizer constants -/

/-- C6: with selector "sgd", train_model builds torch.optim.SGD with
    lr = 0.01 and momentum = 0.5; with selector "adam" it builds
    torch.optim.Adam with lr = 0.01. -/
theorem c6_optimizer_selection {σ : Type} (update : BatchUpdate σ)
    (optInit : σ) (mExp mLog : ℚ → ℚ) (g0 : RngState)
    (trainSet testSet : List (T3 × Nat)) (epochs : Int) (hiddenChannels : Nat) :
    (trainModel update optInit mExp mLog g0 trainSet testSet "sgd" epochs hiddenChannels).optSpec =
        OptimizerSpec.sgd (1 / 100) (1 / 2) ∧
    (trainModel update optInit mExp mLog g0 trainSet testSet "adam" epochs hiddenChannels).optSpec =
        OptimizerSpec.adam (1 / 100) := by
  constructor <;> simp [trainModel, chosenOptimizer]

/-! ## C9: every selector other than "sgd" silently selects Adam -/

/-- C9: train_model validates nothing about the optimizer selector: the
    selection is an if/else on equality with "sgd", so every other string
    (misspellings included) silently selects torch.optim.Adam(lr = 0.01),
    and no error is raised. -/
theorem c9_unknown_selector_is_adam {σ : Type} (update : BatchUpdate σ)
    (optInit : σ) (mExp mLog : ℚ → ℚ) (g0 : RngState)
    (trainSet testSet : List (T3 × Nat)) (epochs : Int) (hiddenChannels : Nat)
    (s : String) (hs : s ≠ "sgd") :
    chosenOptimizer s = OptimizerSpec.adam (1 / 100) ∧
    (trainModel update optInit mExp mLog g0 trainSet testSet s epochs hiddenChannels).optSpec =
      OptimizerSpec.adam (1 / 100) := by
  constructor <;> simp [trainModel, chosenOptimizer, hs]

/-- Closed instance of c9_unknown_selector_is_adam at the misspelled selector
    "adamm". -/
theorem c9_witness :
    chosenOptimizer "adamm" = OptimizerSpec.adam (1 / 100) ∧
    (trainModel demoUpdate () id id 0 [] [] "adamm" 1 5).optSpec =
      OptimizerSpec.adam (1 / 100) :=
  c9_unknown_selector_is_adam demoUpdate () id id 0 [] [] 1 5 "adamm" (by decide)

/-! ## C10: a non-positive epoch count runs zero epochs -/

/-- C10: with epochs at most 0, range(1, epochs + 1) is empty, so the loop
    body never runs: no batch update happens, no evaluation logging happens,
    and the returned model carries exactly the freshly seed-initialized
    parameters. -/
theorem c10_nonpositive_epochs {σ : Type} (update : BatchUpdate σ)
    (optInit : σ) (mExp mLog : ℚ → ℚ) (g0 : RngState)
    (trainSet testSet : List (T3 × Nat)) (optimizer : String)
    (epochs : Int) (hiddenChannels : Nat) (he : epochs ≤ 0) :
    (trainModel update optInit mExp mLog g0 trainSet testSet optimizer epochs hiddenChannels).events = [] ∧
    (trainModel update optInit mExp mLog g0 trainSet testSet optimizer epochs hiddenChannels).params =
      (initNet hiddenChannels (manualSeed 42)).1 := by
  have hr : pythonRange 1 (epochs + 1) = [] := by
    have h0 : (epochs + 1 - 1).toNat = 0 := by omega
    unfold pythonRange
    rw [h0]
    rfl
  constructor <;> simp [trainModel, hr]

/-- Closed instance of c10_nonpositive_epochs at epochs = 0. -/
theorem c10_witness :
    (trainModel demoUpdate () id id 7 [] [] "sgd" 0 3).events = [] ∧
    (trainModel demoUpdate () id id 7 [] [] "sgd" 0 3).params =
      (initNet 3 (manualSeed 42)).1 :=
  c10_nonpositive_epochs demoUpdate () id id 7 [] [] "sgd" 0 3 (by decide)

/-! ## Shape lemmas for the tensor operations -/

lemma isVec_eq_true_iff {v : Vec} {n : Nat} : isVec v n = true ↔ v.length = n := by
  simp [isVec]

lemma isMat_eq_true_iff {m : Mat} {r c : Nat} :
    isMat m r c = true ↔ m.length = r ∧ ∀ row ∈ m, row.length = c := by
  simp [isMat, List.all_eq_true]

lemma isT3_eq_true_iff {x : T3} {c h w : Nat} :
    isT3 x c h w = true ↔ x.length = c ∧ ∀ ch ∈ x, isMat ch h w = true := by
  simp [isT3, List.all_eq_true]

lemma isT4_eq_true_iff {x : T4} {o c h w : Nat} :
    isT4 x o c h w = true ↔ x.length = o ∧ ∀ ch ∈ x, isT3 ch c h w = true := by
  simp [isT4, List.all_eq_true]

lemma isMat_range_map (f : Nat → Nat → ℚ) (r c : Nat) :
    isMat ((List.range r).map (fun i => (List.range c).map (f i))) r c = true := by
  rw [isMat_eq_true_iff]
  constructor
  · simp
  · intro row hrow
    simp only [List.mem_map] at hrow
    obtain ⟨i, _, rfl⟩ := hrow
    simp

lemma snd_mem_of_mem_enum {α : Type} {l : List α} {p : Nat × α} (hp : p ∈ l.enum) :
    p.2 ∈ l := by
  have := List.mem_map_of_mem Prod.snd hp
  rwa [List.enum_map_snd] at this

lemma relu3_shape {x : T3} {c h w : Nat} (hx : isT3 x c h w = true) :
    isT3 (relu3 x) c h w = true := by
  rw [isT3_eq_true_iff] at hx ⊢
  obtain ⟨hl, hall⟩ := hx
  refine ⟨by simp [relu3, hl], ?_⟩
  intro ch hch
  simp only [relu3, List.mem_map] at hch
  obtain ⟨ch0, hch0, rfl⟩ := hch
  rw [isMat_eq_true_iff]
  obtain ⟨h1, h2⟩ := isMat_eq_true_iff.mp (hall ch0 hch0)
  refine ⟨by simp [h1], ?_⟩
  intro row hrow
  simp only [List.mem_map] at hrow
  obtain ⟨row0, hrow0, rfl⟩ := hrow
  simp [h2 row0 hrow0]

lemma dropout2d_shape {x : T3} {c h w : Nat} (training : Bool) (mask : Nat → Bool)
    (p : ℚ) (hx : isT3 x c h w = true) :
    isT3 (dropout2d training mask p x) c h w = true := by
  cases training with
  | false => simpa [dropout2d] using hx
  | true =>
    rw [isT3_eq_true_iff] at hx ⊢
    obtain ⟨hl, hall⟩ := hx
    refine ⟨by simp [dropout2d, hl], ?_⟩
    intro ch hch
    simp only [dropout2d, if_pos, List.mem_map] at hch
    obtain ⟨ci, hci, rfl⟩ := hch
    obtain ⟨h1, h2⟩ := isMat_eq_true_iff.mp (hall ci.2 (snd_mem_of_mem_enum hci))
    rw [isMat_eq_true_iff]
    by_cases hm : mask ci.1 <;>
      simp only [hm, if_true, if_false, Bool.false_eq_true, ite_false, ite_true] <;>
      refine ⟨by simp [h1], ?_⟩ <;>
      intro row hrow <;>
      simp only [List.mem_map] at hrow <;>
      obtain ⟨row0, hrow0, rfl⟩ := hrow <;>
      simp [h2 row0 hrow0]

lemma conv2d_shape {w : T4} {b : Vec} {x : T3} {o c kh kw hI wI : Nat}
    (ho : 0 < o) (hc : 0 < c) (hkh : 0 < kh) (hH : 0 < hI)
    (hw : isT4 w o c kh kw = true) (hb : b.length = o)
    (hx : isT3 x c hI wI = true) :
    isT3 (conv2d w b x) o (hI + 1 - kh) (wI + 1 - kw) = true := by
  obtain ⟨hwl, hwall⟩ := isT4_eq_true_iff.mp hw
  obtain ⟨hxl, hxall⟩ := isT3_eq_true_iff.mp hx
  have hwne : w ≠ [] := by
    intro hnil
    rw [hnil] at hwl
    simp at hwl
    omega
  obtain ⟨hw0l, hw0all⟩ := isT3_eq_true_iff.mp (hwall _ (headD_mem [] hwne))
  have hw0ne : (w.headD []) ≠ [] := by
    intro hnil
    rw [hnil] at hw0l
    simp at hw0l
    omega
  obtain ⟨hm0l, hm0all⟩ := isMat_eq_true_iff.mp (hw0all _ (headD_mem [] hw0ne))
  have hm0ne : ((w.headD []).headD []) ≠ [] := by
    intro hnil
    rw [hnil] at hm0l
    simp at hm0l
    omega
  have hrow : (((w.headD []).headD []).headD []).length = kw :=
    hm0all _ (headD_mem [] hm0ne)
  have hxne : x ≠ [] := by
    intro hnil
    rw [hnil] at hxl
    simp at hxl
    omega
  obtain ⟨hx0l, hx0all⟩ := isMat_eq_true_iff.mp (hxall _ (headD_mem [] hxne))
  have hx0ne : (x.headD []) ≠ [] := by
    intro hnil
    rw [hnil] at hx0l
    simp at hx0l
    omega
  have hxrow : ((x.headD []).headD []).length = wI := hx0all _ (headD_mem [] hx0ne)
  rw [isT3_eq_true_iff]
  simp only [conv2d, hm0l, hrow, hx0l, hxrow]
  constructor
  · simp [List.length_zip, hwl, hb]
  · intro ch hch
    simp only [List.mem_map] at hch
    obtain ⟨wb, _, rfl⟩ := hch
    exact isMat_range_map _ _ _

lemma maxPool2_shape {x : T3} {c h w : Nat} (hH : 0 < h)
    (hx : isT3 x c h w = true) :
    isT3 (maxPool2 x) c (h / 2) (w / 2) = true := by
  obtain ⟨hl, hall⟩ := isT3_eq_true_iff.mp hx
  rw [isT3_eq_true_iff]
  refine ⟨by simp [maxPool2, hl], ?_⟩
  intro ch hch
  simp only [maxPool2, List.mem_map] at hch
  obtain ⟨ch0, hch0, rfl⟩ := hch
  obtain ⟨h1, h2⟩ := isMat_eq_true_iff.mp (hall ch0 hch0)
  have hch0ne : ch0 ≠ [] := by
    intro hnil
    rw [hnil] at h1
    simp at h1
    omega
  have hhead : (ch0.headD []).length = w := h2 _ (headD_mem [] hch0ne)
  simp only [h1, hhead]
  exact isMat_range_map _ _ _

lemma flatten_length {x : T3} {c h w : Nat} (hx : isT3 x c h w = true) :
    (flatten x).length = c * (h * w) := by
  obtain ⟨hl, hall⟩ := isT3_eq_true_iff.mp hx
  have hmap : ∀ ch ∈ x, ch.flatten.length = h * w := by
    intro ch hch
    obtain ⟨h1, h2⟩ := isMat_eq_true_iff.mp (hall ch hch)
    rw [List.length_flatten, sum_map_const h2, h1]
  rw [flatten, List.length_flatten, List.map_map]
  have h2 : (List.map (List.length ∘ List.flatten) x).sum = x.length * (h * w) :=
    sum_map_const (fun ch hch => hmap ch hch)
  rw [h2, hl]

lemma length_linear (w : Mat) (b v : Vec) :
    (linear w b v).length = min w.length b.length := by
  simp [linear]

lemma length_logSoftmax (mExp mLog : ℚ → ℚ) (v : Vec) :
    (logSoftmax mExp mLog v).length = v.length := by
  simp [logSoftmax]

lemma length_reluV (v : Vec) : (reluV v).length = v.length := by
  simp [reluV]

lemma length_dropoutV (training : Bool) (mask : Nat → Bool) (p : ℚ) (v : Vec) :
    (dropoutV training mask p v).length = v.length := by
  cases training <;> simp [dropoutV]

/-! ## Shapes of the initialized network -/

lemma drawVec_length : ∀ (n : Nat) (g : RngState), (drawVec n g).1.length = n := by
  intro n
  induction n with
  | zero => intro g; rfl
  | succ k ih => intro g; simp [drawVec, ih]

lemma drawMat_shape : ∀ (r c : Nat) (g : RngState), isMat (drawMat r c g).1 r c = true := by
  intro r
  induction r with
  | zero => intro c g; rfl
  | succ k ih =>
    intro c g
    rw [isMat_eq_true_iff]
    obtain ⟨hl, hall⟩ := isMat_eq_true_iff.mp (ih c (drawVec c g).2)
    refine ⟨by simp [drawMat, hl], ?_⟩
    intro row hrow
    simp only [drawMat, List.mem_cons] at hrow
    rcases hrow with rfl | hrow
    · exact drawVec_length c g
    · exact hall row hrow

lemma drawT3_shape : ∀ (c h w : Nat) (g : RngState), isT3 (drawT3 c h w g).1 c h w = true := by
  intro c
  induction c with
  | zero => intro h w g; rfl
  | succ k ih =>
    intro h w g
    rw [isT3_eq_true_iff]
    obtain ⟨hl, hall⟩ := isT3_eq_true_iff.mp (ih h w (drawMat h w g).2)
    refine ⟨by simp [drawT3, hl], ?_⟩
    intro ch hch
    simp only [drawT3, List.mem_cons] at hch
    rcases hch with rfl | hch
    · exact drawMat_shape h w g
    · exact hall ch hch

lemma drawT4_shape : ∀ (o c h w : Nat) (g : RngState), isT4 (drawT4 o c h w g).1 o c h w = true := by
  intro o
  induction o with
  | zero => intro c h w g; rfl
  | succ k ih =>
    intro c h w g
    rw [isT4_eq_true_iff]
    obtain ⟨hl, hall⟩ := isT4_eq_true_iff.mp (ih c h w (drawT3 c h w g).2)
    refine ⟨by simp [drawT4, hl], ?_⟩
    intro ch hch
    simp only [drawT4, List.mem_cons] at hch
    rcases hch with rfl | hch
    · exact drawT3_shape c h w g
    · exact hall ch hch

lemma initNet_shape (h : Nat) (g : RngState) : shapeOk h (initNet h g).1 = true := by
  simp [initNet, shapeOk, isVec, drawVec_length, drawMat_shape, drawT3_shape, drawT4_shape]

/-! ## C4: the forward pass is exactly the specified pipeline -/

/-- C4: three parts.  First, for every hidden width, parameter set, dropout
    mask, training flag and input, Net.forward (with the constructed
    drop_out = 0.5) computes exactly the pipeline of section 4.1 step 4,
    stated as a second definition written from the specification sentence.
    Second, on an MNIST-shaped input (1 x 28 x 28) and well-shaped parameters
    the flatten stage receives exactly 320 features.  Third, the output is a
    vector over exactly 10 classes. -/
theorem c4_forward_is_spec_pipeline :
    (∀ (mExp mLog : ℚ → ℚ) (training : Bool) (mask2 mask1 : Nat → Bool)
        (p : NetParams) (x : T3),
      netForward mExp mLog training mask2 mask1 (1 / 2) p x =
        specPipeline mExp mLog training mask2 mask1 p x) ∧
    (∀ (training : Bool) (mask2 : Nat → Bool) (p : NetParams) (x : T3) (h : Nat),
      0 < h → shapeOk h p = true → isT3 x 1 28 28 = true →
      (flatten (convBlocks training mask2 (1 / 2) p x)).length = 320) ∧
    (∀ (mExp mLog : ℚ → ℚ) (training : Bool) (mask2 mask1 : Nat → Bool)
        (p : NetParams) (x : T3) (h : Nat),
      shapeOk h p = true →
      (netForward mExp mLog training mask2 mask1 (1 / 2) p x).length = 10) := by
  refine ⟨fun _ _ _ _ _ _ _ => rfl, ?_, ?_⟩
  · intro training mask2 p x h hh hs hx
    have hblocks : isT3 (convBlocks training mask2 (1 / 2) p x) 20 4 4 = true := by
      simp only [shapeOk, Bool.and_eq_true] at hs
      obtain ⟨⟨⟨⟨⟨⟨⟨hc1w, hc1b⟩, hc2w⟩, hc2b⟩, hf1w⟩, hf1b⟩, hf2w⟩, hf2b⟩ := hs
      have hb1 : p.conv1Bias.length = h := isVec_eq_true_iff.mp hc1b
      have hb2 : p.conv2Bias.length = 20 := isVec_eq_true_iff.mp hc2b
      have s1 : isT3 (conv2d p.conv1Weight p.conv1Bias x) h 24 24 := by
        have := conv2d_shape hh (by norm_num) (by norm_num) (by norm_num) hc1w hb1 hx
        norm_num at this
        exact this
      have s2 : isT3 (relu3 (maxPool2 (conv2d p.conv1Weight p.conv1Bias x))) h 12 12 := by
        have := relu3_shape (maxPool2_shape (by norm_num) s1)
        norm_num at this
        exact this
      have s3 : isT3 (conv2d p.conv2Weight p.conv2Bias
          (relu3 (maxPool2 (conv2d p.conv1Weight p.conv1Bias x)))) 20 8 8 := by
        have := conv2d_shape (by norm_num) hh (by norm_num) (by norm_num) hc2w hb2 s2
        norm_num at this
        exact this
      have s4 := relu3_shape (maxPool2_shape (h := 8) (by norm_num)
        (dropout2d_shape training mask2 (1 / 2) s3))
      norm_num at s4
      simpa [convBlocks] using s4
    rw [flatten_length hblocks]
  · intro mExp mLog training mask2 mask1 p x h hs
    simp only [shapeOk, Bool.and_eq_true] at hs
    obtain ⟨⟨⟨⟨⟨⟨⟨hc1w, hc1b⟩, hc2w⟩, hc2b⟩, hf1w⟩, hf1b⟩, hf2w⟩, hf2b⟩ := hs
    have hwl : p.fc2Weight.length = 10 := (isMat_eq_true_iff.mp hf2w).1
    have hbl : p.fc2Bias.length = 10 := isVec_eq_true_iff.mp hf2b
    simp [netForward, length_logSoftmax, length_linear, hwl, hbl]

set_option maxRecDepth 40000 in
/-- Closed instance of c4_forward_is_spec_pipeline at hidden width 5, the
    all-zero parameter set of the right shapes, and an all-zero
    1 x 28 x 28 input. -/
theorem c4_witness :
    netForward id id true (fun _ => true) (fun _ => false) (1 / 2) (zerosNet 5) (zerosT3 1 28 28) =
      specPipeline id id true (fun _ => true) (fun _ => false) (zerosNet 5) (zerosT3 1 28 28) ∧
    (flatten (convBlocks true (fun _ => true) (1 / 2) (zerosNet 5) (zerosT3 1 28 28))).length = 320 ∧
    (netForward id id true (fun _ => true) (fun _ => false) (1 / 2) (zerosNet 5) (zerosT3 1 28 28)).length = 10 :=
  ⟨c4_forward_is_spec_pipeline.1 id id true (fun _ => true) (fun _ => false) (zerosNet 5) (zerosT3 1 28 28),
   c4_forward_is_spec_pipeline.2.1 true (fun _ => true) (zerosNet 5) (zerosT3 1 28 28) 5
     (by decide) (by decide) (by decide),
   c4_forward_is_spec_pipeline.2.2 id id true (fun _ => true) (fun _ => false) (zerosNet 5)
     (zerosT3 1 28 28) 5 (by decide)⟩

/-! ## Parameter counting -/

lemma countMat_of_shape {m : Mat} {r c : Nat} (hm : isMat m r c = true) :
    countMat m = r * c := by
  obtain ⟨hl, hall⟩ := isMat_eq_true_iff.mp hm
  rw [countMat, sum_map_const hall, hl]

lemma countT4_of_shape {w : T4} {o c kh kw : Nat} (hw : isT4 w o c kh kw = true) :
    countT4 w = o * (c * (kh * kw)) := by
  obtain ⟨hl, hall⟩ := isT4_eq_true_iff.mp hw
  have hch : ∀ ch ∈ w, (ch.map (fun m => (m.map List.length).sum)).sum = c * (kh * kw) := by
    intro ch hch
    obtain ⟨h1, h2⟩ := isT3_eq_true_iff.mp (hall ch hch)
    have hm : ∀ m ∈ ch, (m.map List.length).sum = kh * kw := by
      intro m hm2
      obtain ⟨hm1, hmall⟩ := isMat_eq_true_iff.mp (h2 m hm2)
      rw [sum_map_const hmall, hm1]
    rw [sum_map_const hm, h1]
  rw [countT4, sum_map_const hch, hl]

lemma countParams_of_shape {h : Nat} {p : NetParams} (hs : shapeOk h p = true) :
    countParams p = 526 * h + 16580 := by
  simp only [shapeOk, Bool.and_eq_true] at hs
  obtain ⟨⟨⟨⟨⟨⟨⟨hc1w, hc1b⟩, hc2w⟩, hc2b⟩, hf1w⟩, hf1b⟩, hf2w⟩, hf2b⟩ := hs
  rw [countParams, countT4_of_shape hc1w, countT4_of_shape hc2w,
      countMat_of_shape hf1w, countMat_of_shape hf2w,
      isVec_eq_true_iff.mp hc1b, isVec_eq_true_iff.mp hc2b,
      isVec_eq_true_iff.mp hf1b, isVec_eq_true_iff.mp hf2b]
  ring_nf

/-! ## Shape preservation through the training loop -/

lemma runEpoch_net_shape {σ : Type} {update : BatchUpdate σ} {mExp mLog : ℚ → ℚ}
    {trainSet testSet : List (T3 × Nat)} {spec : OptimizerSpec} {h : Nat}
    (hup : ∀ spec o p b g, shapeOk h p = true → shapeOk h (update spec o p b g).1 = true)
    (st : TrainState σ) (e : Int) (hst : shapeOk h st.net = true) :
    shapeOk h (runEpoch update mExp mLog trainSet testSet spec st e).1.net = true := by
  simp only [runEpoch]
  exact foldl_invariant (P := fun (acc : NetParams × σ × RngState) => shapeOk h acc.1 = true)
    (fun acc b hacc => hup spec acc.2.1 acc.1 b acc.2.2 hacc) _ _ hst

lemma foldl_pair_invariant {S : Type} {P : S → Prop} (f : S → Int → S × List TrainEvent)
    (hf : ∀ s e, P s → P (f s e).1) :
    ∀ (l : List Int) (s : S) (acc : List TrainEvent), P s →
      P ((l.foldl (fun p e => ((f p.1 e).1, p.2 ++ (f p.1 e).2)) (s, acc)).1) := by
  intro l
  induction l with
  | nil => intro s acc hs; simpa using hs
  | cons e t ih => intro s acc hs; exact ih _ _ (hf s e hs)

lemma trainModel_params_shape {σ : Type} (update : BatchUpdate σ) (optInit : σ)
    (mExp mLog : ℚ → ℚ) (g0 : RngState) (trainSet testSet : List (T3 × Nat))
    (optimizer : String) (epochs : Int) (h : Nat)
    (hup : ∀ spec o p b g, shapeOk h p = true → shapeOk h (update spec o p b g).1 = true) :
    shapeOk h (trainModel update optInit mExp mLog g0 trainSet testSet optimizer epochs h).params = true := by
  have hst0 : shapeOk h (initNet h (manualSeed 42)).1 = true := initNet_shape h _
  simp only [trainModel]
  exact foldl_pair_invariant
    (P := fun (st : TrainState σ) => shapeOk h st.net = true)
    (fun st e => runEpoch update mExp mLog trainSet testSet (chosenOptimizer optimizer) st e)
    (fun s e hs => runEpoch_net_shape hup s e hs)
    (pythonRange 1 (epochs + 1))
    ⟨(initNet h (manualSeed 42)).1, optInit, (initNet h (manualSeed 42)).2⟩ [] hst0

/-! ## C1 (amended): the saved artifact -/

/-- C1 (amended): after train_model completes with any shape-preserving
    framework update rule, save_model writes exactly one file, model.pth
    inside the given directory, and the serialized parameter mapping contains
    tensors for exactly 8 named parameters, the weights and biases of conv1,
    conv2, fc1 and fc2 (under the module. prefix of the DataParallel
    wrapper), whose shapes match the architecture of section 4.1 step 4 for
    the hidden-channel width the model was built with. -/
theorem c1_saved_artifact {σ : Type} (update : BatchUpdate σ) (optInit : σ)
    (mExp mLog : ℚ → ℚ) (g0 : RngState) (trainSet testSet : List (T3 × Nat))
    (optimizer : String) (epochs : Int) (h : Nat) (dir : String)
    (hup : ∀ spec o p b g, shapeOk h p = true → shapeOk h (update spec o p b g).1 = true) :
    saveModel (trainModel update optInit mExp mLog g0 trainSet testSet optimizer epochs h).params dir =
      [(dir ++ "/model.pth",
        stateDict (trainModel update optInit mExp mLog g0 trainSet testSet optimizer epochs h).params)] ∧
    (stateDict (trainModel update optInit mExp mLog g0 trainSet testSet optimizer epochs h).params).length = 8 ∧
    (stateDict (trainModel update optInit mExp mLog g0 trainSet testSet optimizer epochs h).params).map Prod.fst =
      ["module.conv1.weight", "module.conv1.bias", "module.conv2.weight", "module.conv2.bias",
       "module.fc1.weight", "module.fc1.bias", "module.fc2.weight", "module.fc2.bias"] ∧
    shapeOk h (trainModel update optInit mExp mLog g0 trainSet testSet optimizer epochs h).params = true :=
  ⟨rfl, rfl, rfl,
   trainModel_params_shape update optInit mExp mLog g0 trainSet testSet optimizer epochs h hup⟩

/-- Closed instance of c1_saved_artifact: the end-to-end scenario of the
    specification (1 epoch, optimizer "adam", hidden_channels 5), with the
    zero-learning-rate concrete update rule. -/
theorem c1_witness :
    (stateDict (trainModel demoUpdate () id id 0 [(zerosT3 1 28 28, 0)] [] "adam" 1 5).params).length = 8 ∧
    shapeOk 5 (trainModel demoUpdate () id id 0 [(zerosT3 1 28 28, 0)] [] "adam" 1 5).params = true :=
  ⟨(c1_saved_artifact demoUpdate () id id 0 [(zerosT3 1 28 28, 0)] [] "adam" 1 5 "/opt/ml/model"
      (fun _ _ _ _ _ hp => hp)).2.1,
   (c1_saved_artifact demoUpdate () id id 0 [(zerosT3 1 28 28, 0)] [] "adam" 1 5 "/opt/ml/model"
      (fun _ _ _ _ _ hp => hp)).2.2.2⟩

/-- C1 counterexample to the claim as stated: in the end-to-end scenario
    (1 epoch, optimizer "adam", hidden_channels 5), the parameter mapping
    inside the single written file holds 8 named tensors, not 6: the four
    layers conv1, conv2, fc1, fc2 contribute a weight and a bias each. -/
theorem c1_counterexample :
    ¬ (((saveModel (trainModel demoUpdate () id id 0 [(zerosT3 1 28 28, 0)] [] "adam" 1 5).params
          "/opt/ml/model").headD ("", [])).2.length = 6) := by
  decide

/-! ## C7: the selector changes the optimizer, not the architecture -/

/-- C7: for fixed epochs and hidden width and any shape-preserving framework
    update rule, running train_model with "sgd" and with "adam" yields
    different optimizers but models of identical architecture: both parameter
    sets satisfy the same shape signature and have the same total parameter
    count, 526 h + 16580. -/
theorem c7_selector_preserves_architecture {σ : Type} (update : BatchUpdate σ)
    (optInit : σ) (mExp mLog : ℚ → ℚ) (g0 : RngState)
    (trainSet testSet : List (T3 × Nat)) (epochs : Int) (h : Nat)
    (hup : ∀ spec o p b g, shapeOk h p = true → shapeOk h (update spec o p b g).1 = true) :
    (trainModel update optInit mExp mLog g0 trainSet testSet "sgd" epochs h).optSpec ≠
      (trainModel update optInit mExp mLog g0 trainSet testSet "adam" epochs h).optSpec ∧
    shapeOk h (trainModel update optInit mExp mLog g0 trainSet testSet "sgd" epochs h).params = true ∧
    shapeOk h (trainModel update optInit mExp mLog g0 trainSet testSet "adam" epochs h).params = true ∧
    countParams (trainModel update optInit mExp mLog g0 trainSet testSet "sgd" epochs h).params =
      countParams (trainModel update optInit mExp mLog g0 trainSet testSet "adam" epochs h).params ∧
    countParams (trainModel update optInit mExp mLog g0 trainSet testSet "sgd" epochs h).params =
      526 * h + 16580 := by
  have hs := trainModel_params_shape update optInit mExp mLog g0 trainSet testSet "sgd" epochs h hup
  have ha := trainModel_params_shape update optInit mExp mLog g0 trainSet testSet "adam" epochs h hup
  refine ⟨?_, hs, ha, ?_, countParams_of_shape hs⟩
  · simp [trainModel, chosenOptimizer]
  · rw [countParams_of_shape hs, countParams_of_shape ha]

/-- Closed instance of c7_selector_preserves_architecture at hidden width 10
    and 1 epoch. -/
theorem c7_witness :
    (trainModel demoUpdate () id id 0 [] [] "sgd" 1 10).optSpec ≠
      (trainModel demoUpdate () id id 0 [] [] "adam" 1 10).optSpec ∧
    countParams (trainModel demoUpdate () id id 0 [] [] "sgd" 1 10).params = 526 * 10 + 16580 :=
  ⟨(c7_selector_preserves_architecture demoUpdate () id id 0 [] [] 1 10
      (fun _ _ _ _ _ hp => hp)).1,
   (c7_selector_preserves_architecture demoUpdate () id id 0 [] [] 1 10
      (fun _ _ _ _ _ hp => hp)).2.2.2.2⟩

/-! ## The epoch loop as a trace -/

lemma foldl_pair_log {S : Type} (f : S → Int → S × List TrainEvent) :
    ∀ (l : List Int) (s : S) (acc : List TrainEvent),
      l.foldl (fun p e => ((f p.1 e).1, p.2 ++ (f p.1 e).2)) (s, acc) =
        (foldState f l s, acc ++ runLog f l s) := by
  intro l
  induction l with
  | nil => intro s acc; simp [foldState, runLog]
  | cons e t ih =>
    intro s acc
    simp only [List.foldl_cons]
    rw [ih]
    simp [foldState, runLog]

lemma runLog_append {S : Type} (f : S → Int → S × List TrainEvent)
    (l1 l2 : List Int) :
    ∀ s : S, runLog f (l1 ++ l2) s = runLog f l1 s ++ runLog f l2 (foldState f l1 s) := by
  induction l1 with
  | nil => intro s; simp [runLog, foldState]
  | cons e t ih => intro s; simp [runLog, foldState, ih, List.append_assoc]

lemma pythonRange_one_nil {b : Int} (hb : b ≤ 1) : pythonRange 1 b = [] := by
  have h0 : (b - 1).toNat = 0 := by omega
  unfold pythonRange
  rw [h0]
  rfl

lemma pythonRange_one_succ (n : Nat) :
    pythonRange 1 (1 + ((n : Int) + 1)) = pythonRange 1 (1 + (n : Int)) ++ [1 + (n : Int)] := by
  have h1 : ((1 + ((n : Int) + 1)) - 1).toNat = n + 1 := by omega
  have h2 : ((1 + (n : Int)) - 1).toNat = n := by omega
  unfold pythonRange
  rw [h1, h2, List.range_succ, List.map_append]
  simp

lemma runLog_range_bind {S : Type} (f : S → Int → S × List TrainEvent) (s0 : S) :
    ∀ (n : Nat),
      runLog f (pythonRange 1 (1 + (n : Int))) s0 =
        (pythonRange 1 (1 + (n : Int))).flatMap
          (fun e => (f (foldState f (pythonRange 1 e) s0) e).2) := by
  intro n
  induction n with
  | zero =>
    rw [pythonRange_one_nil (by norm_num)]
    simp [runLog]
  | succ k ih =>
    push_cast
    rw [pythonRange_one_succ k, runLog_append, List.flatMap_append, ih]
    congr 1

lemma runLog_eq_bind {S : Type} (f : S → Int → S × List TrainEvent) (s0 : S) (b : Int) :
    runLog f (pythonRange 1 b) s0 =
      (pythonRange 1 b).flatMap (fun e => (f (foldState f (pythonRange 1 e) s0) e).2) := by
  rcases le_or_lt b 1 with hb | hb
  · rw [pythonRange_one_nil hb]
    simp [runLog]
  · have hb2 : b = 1 + (((b - 1).toNat : Nat) : Int) := by omega
    rw [hb2]
    exact runLog_range_bind f s0 (b - 1).toNat

/-- The result of train_model, expressed through the from-scratch epoch
    states: the final parameters are the state after all epochs, and the
    event log is the concatenation of the per-epoch blocks. -/
lemma trainModel_run {σ : Type} (update : BatchUpdate σ) (optInit : σ)
    (mExp mLog : ℚ → ℚ) (g0 : RngState) (trainSet testSet : List (T3 × Nat))
    (optimizer : String) (epochs : Int) (h : Nat) :
    trainModel update optInit mExp mLog g0 trainSet testSet optimizer epochs h =
      ⟨(stateBefore update mExp mLog trainSet testSet (chosenOptimizer optimizer)
          (initState optInit h) (epochs + 1)).net,
        chosenOptimizer optimizer,
        runLog (fun st e => runEpoch update mExp mLog trainSet testSet (chosenOptimizer optimizer) st e)
          (pythonRange 1 (epochs + 1)) (initState optInit h)⟩ := by
  simp only [trainModel]
  rw [foldl_pair_log
    (fun st e => runEpoch update mExp mLog trainSet testSet (chosenOptimizer optimizer) st e)
    (pythonRange 1 (epochs + 1))]
  rfl

/-! ## C8: strict sequencing of the epoch loop -/

/-- C8: three parts.  First, the event log of train_model is the
    concatenation, in epoch order 1..epochs, of the per-epoch blocks, so all
    of epoch N completes before epoch N + 1 begins.  Second, every block
    consists of that epoch's batch updates (indices 1..k) followed by its
    evaluation logging over the train partition and then over the test
    partition.  Third, the returned parameters are exactly the state after
    folding every epoch in order: the last epoch's weights are always
    returned, with no early stopping and no best-model selection. -/
theorem c8_epochs_strictly_sequential {σ : Type} (update : BatchUpdate σ)
    (optInit : σ) (mExp mLog : ℚ → ℚ) (g0 : RngState)
    (trainSet testSet : List (T3 × Nat)) (optimizer : String)
    (epochs : Int) (h : Nat) :
    (trainModel update optInit mExp mLog g0 trainSet testSet optimizer epochs h).events =
      (pythonRange 1 (epochs + 1)).flatMap
        (epochBlock update mExp mLog trainSet testSet (chosenOptimizer optimizer)
          (initState optInit h)) ∧
    (∀ e : Int, ∃ (k : Nat) (l1 a1 l2 a2 : ℚ),
      epochBlock update mExp mLog trainSet testSet (chosenOptimizer optimizer)
          (initState optInit h) e =
        (List.range k).map (fun b => TrainEvent.batchStep e (b + 1)) ++
          [TrainEvent.evalLog e "Train" l1 a1, TrainEvent.evalLog e "Test" l2 a2]) ∧
    (trainModel update optInit mExp mLog g0 trainSet testSet optimizer epochs h).params =
      (stateBefore update mExp mLog trainSet testSet (chosenOptimizer optimizer)
        (initState optInit h) (epochs + 1)).net := by
  refine ⟨?_, ?_, ?_⟩
  · rw [trainModel_run]
    rw [runLog_eq_bind]
    rfl
  · intro e
    exact ⟨_, _, _, _, _, rfl⟩
  · rw [trainModel_run]

/-! ## C2: log_performance aggregates over the full partition -/

lemma foldl_pair_sum {β : Type} (f : β → ℚ) (gg : β → Nat) :
    ∀ (l : List β) (a : ℚ) (c : Nat),
      l.foldl (fun acc b => (acc.1 + f b, acc.2 + gg b)) (a, c) =
        (a + (l.map f).sum, c + (l.map gg).sum) := by
  intro l
  induction l with
  | nil => intro a c; simp
  | cons b t ih => intro a c; simp [ih, add_assoc]

lemma nllLossSum_flatten {α : Type} (m : α → Vec) (loader : List (List (α × Nat))) :
    (loader.map (nllLossSum m)).sum = nllLossSum m loader.flatten := by
  induction loader with
  | nil => simp [nllLossSum]
  | cons b t ih =>
    simp only [List.map_cons, List.sum_cons, List.flatten_cons]
    rw [ih]
    simp [nllLossSum, List.sum_append]

lemma correctCount_flatten {α : Type} (m : α → Vec) (loader : List (List (α × Nat))) :
    (loader.map (correctCount m)).sum = correctCount m loader.flatten := by
  induction loader with
  | nil => simp [correctCount]
  | cons b t ih =>
    simp only [List.map_cons, List.sum_cons, List.flatten_cons]
    rw [ih]
    simp [correctCount, List.countP_append]

/-- C2: for any batching of a partition of size M (the batches of the loader
    jointly being a permutation of the partition, which covers the shuffled
    loaders the script builds), log_performance reports exactly the sum of
    the per-example negative-log-likelihood losses over all M examples
    divided by M, and 100 times the number of examples whose arg-max
    predicted class equals the label divided by M; no sampling is involved. -/
theorem c2_log_performance_full_partition {α : Type} (m : α → Vec)
    (dataset : List (α × Nat)) (loader : List (List (α × Nat)))
    (hcover : List.Perm loader.flatten dataset) :
    logPerformance m loader dataset.length =
      (nllLossSum m dataset / (dataset.length : ℚ),
       100 * ((correctCount m dataset : ℚ)) / (dataset.length : ℚ)) := by
  unfold logPerformance
  rw [foldl_pair_sum]
  simp only [zero_add]
  rw [nllLossSum_flatten, correctCount_flatten]
  have h1 : nllLossSum m loader.flatten = nllLossSum m dataset := by
    unfold nllLossSum
    exact (hcover.map _).sum_eq
  have h2 : correctCount m loader.flatten = correctCount m dataset := hcover.countP_eq _
  rw [h1, h2]

/-- Closed instance of c2_log_performance_full_partition: a two-example
    partition split into two shuffled singleton batches. -/
theorem c2_witness :
    logPerformance (fun n => [(n : ℚ), 1]) [[(3, 0)], [(0, 1)]]
        ([((0 : Nat), 1), (3, 0)] : List (Nat × Nat)).length =
      (nllLossSum (fun n => [(n : ℚ), 1]) [((0 : Nat), 1), (3, 0)] / 2,
       100 * ((correctCount (fun n => [(n : ℚ), 1]) [((0 : Nat), 1), (3, 0)] : ℚ)) / 2) :=
  c2_log_performance_full_partition (fun n => [(n : ℚ), 1])
    [((0 : Nat), 1), (3, 0)] [[(3, 0)], [(0, 1)]] (by decide)

/-! ## C3: the environment paths are mandatory, the hyperparameters default -/

/-- C3: three parts.  First, when any of the three environment-supplied paths
    (model-output directory, GPU-count indicator, training-data channel) is
    absent from the environment and not supplied on the command line, the
    script's startup fails with an error before train_model is ever invoked:
    scriptMain returns an error and neither a training result nor a written
    file exists.  Second, with all three present and the GPU-count value an
    integer, an empty command line parses to the documented hyperparameter
    defaults epochs = 10, optimizer = "sgd", hidden_channels = 10.  Third,
    a GPU-count value the type=int conversion rejects is also a fatal
    startup error. -/
theorem c3_mandatory_env_paths {σ : Type} (update : BatchUpdate σ) (optInit : σ)
    (mExp mLog : ℚ → ℚ) (g0 : RngState)
    (loadData : String → Bool → List (T3 × Nat)) :
    (∀ (env : SMEnv) (cmd : List (String × String)),
      ((env.smModelDir = none ∧ lookupFlag "--model-dir" cmd = none) ∨
       (env.smNumGpus = none ∧ lookupFlag "--num-gpus" cmd = none) ∨
       (env.smChannelTraining = none ∧ lookupFlag "--data-dir" cmd = none)) →
      ∃ msg, scriptMain update optInit mExp mLog g0 loadData env cmd = Except.error msg) ∧
    (∀ (md ng dd : String) (n : Int), parsePyInt ng = some n →
      parseArgs ⟨some md, some ng, some dd⟩ [] =
        Except.ok ⟨10, "sgd", 10, md, n, dd⟩) ∧
    (∀ md ng dd : String, parsePyInt ng = none →
      ∃ msg, scriptMain update optInit mExp mLog g0 loadData
        ⟨some md, some ng, some dd⟩ [] = Except.error msg) := by
  refine ⟨?_, ?_, ?_⟩
  · intro env cmd hcond
    obtain ⟨emd, eng, ect⟩ := env
    rcases hcond with ⟨h1, _⟩ | ⟨h2, _⟩ | ⟨h3, _⟩
    · simp only at h1
      subst h1
      exact ⟨"KeyError: SM_MODEL_DIR", by simp [scriptMain, parseArgs, Bind.bind, Except.bind]⟩
    · simp only at h2
      subst h2
      cases emd with
      | none =>
        exact ⟨"KeyError: SM_MODEL_DIR", by simp [scriptMain, parseArgs, Bind.bind, Except.bind]⟩
      | some md =>
        exact ⟨"KeyError: SM_NUM_GPUS", by simp [scriptMain, parseArgs, Bind.bind, Except.bind]⟩
    · simp only at h3
      subst h3
      cases emd with
      | none =>
        exact ⟨"KeyError: SM_MODEL_DIR", by simp [scriptMain, parseArgs, Bind.bind, Except.bind]⟩
      | some md =>
        cases eng with
        | none =>
          exact ⟨"KeyError: SM_NUM_GPUS", by simp [scriptMain, parseArgs, Bind.bind, Except.bind]⟩
        | some ng =>
          exact ⟨"KeyError: SM_CHANNEL_TRAINING",
            by simp [scriptMain, parseArgs, Bind.bind, Except.bind]⟩
  · intro md ng dd n hn
    simp [parseArgs, parseIntArg, intOfString, lookupFlag, hn, Bind.bind, Except.bind]
  · intro md ng dd hn
    exact ⟨"--num-gpus: invalid int value",
      by simp [scriptMain, parseArgs, parseIntArg, intOfString, lookupFlag, hn,
        Bind.bind, Except.bind]⟩

/-- Closed instance of c3_mandatory_env_paths: an environment without
    SM_MODEL_DIR and an empty command line fail; a complete environment with
    integer SM_NUM_GPUS and an empty command line parses to the documented
    defaults; a complete environment with non-integer SM_NUM_GPUS fails. -/
theorem c3_witness :
    (∃ msg, scriptMain demoUpdate () id id 0 (fun _ _ => [])
        ⟨none, some "1", some "/opt/ml/input/data/training"⟩ [] = Except.error msg) ∧
    parseArgs ⟨some "/opt/ml/model", some "1", some "/opt/ml/input/data/training"⟩ [] =
      Except.ok ⟨10, "sgd", 10, "/opt/ml/model", 1, "/opt/ml/input/data/training"⟩ ∧
    (∃ msg, scriptMain demoUpdate () id id 0 (fun _ _ => [])
        ⟨some "/opt/ml/model", some "two", some "/opt/ml/input/data/training"⟩ [] =
      Except.error msg) :=
  ⟨(c3_mandatory_env_paths demoUpdate () id id 0 (fun _ _ => [])).1
      ⟨none, some "1", some "/opt/ml/input/data/training"⟩ [] (Or.inl ⟨rfl, rfl⟩),
   (c3_mandatory_env_paths demoUpdate () id id 0 (fun _ _ => [])).2.1
      "/opt/ml/model" "1" "/opt/ml/input/data/training" 1 (by decide),
   (c3_mandatory_env_paths demoUpdate () id id 0 (fun _ _ => [])).2.2
      "/opt/ml/model" "two" "/opt/ml/input/data/training" (by decide)⟩

end MnistScript
